import Mathlib

/-!
Shallow embedding of the ESNODE-Core agent (Rust) for checking its
natural-language specification.  Each definition mirrors one function or
data structure of the source tree; `f64` values are modelled as exact
rationals (`ℚ`), machine integers as `ℕ` with explicit clamping where the
source casts, and wall-clock instants as `ℕ` milliseconds.
-/

namespace ESNODE

/-! ## PUE calculator — `src/crates/agent-core/src/collectors/pue.rs`

The two power-source `HashMap<String, f64>` maps are modelled as
association lists; only the sums of their values matter to the
computation. -/

/-- State of `PueCalculator`: the two cached power-source maps. -/
structure PueCalculator where
  it_power_sources : List (String × ℚ)
  facility_power_sources : List (String × ℚ)

/-- Source `PueCalculator::total_it_power`: sum of the IT power map's values. -/
def PueCalculator.total_it_power (c : PueCalculator) : ℚ :=
  (c.it_power_sources.map Prod.snd).sum

/-- Source `PueCalculator::total_facility_power`: sum of the facility map's values. -/
def PueCalculator.total_facility_power (c : PueCalculator) : ℚ :=
  (c.facility_power_sources.map Prod.snd).sum

/-- Source `PueCalculator::calculate_pue`.  When IT power is `<= 0` return `0`;
otherwise `facility / it`; a value `< 1.0` only triggers a warning and is
returned unchanged; a value `> 10.0` is capped to `10.0`. -/
def PueCalculator.calculate_pue (c : PueCalculator) : ℚ :=
  let it := c.total_it_power
  let facility := c.total_facility_power
  if it ≤ 0 then 0
  else
    let pue := facility / it
    if pue > 10 then 10 else pue

/-! ## Power-throttle enforcement — `src/crates/agent-core/src/control.rs`

`Enforcer::apply_throttle_power` after the target GPU has been resolved.
The `parameters.get("limit_watts").or(get("limit")).as_f64()` lookup is
abstracted to an `Option ℚ` argument, and the NVML device is abstracted to
its power-limit constraints plus the list of
`set_power_management_limit` calls performed. -/

/-- NVML `power_management_limit_constraints` (milliwatt values, `u32`). -/
structure PowerConstraints where
  min_limit : ℕ
  max_limit : ℕ

/-- Error outcomes of `apply_throttle_power`; `outOfRange` carries the
constraint range that the formatted error message reports. -/
inductive EnforceError where
  | missingLimit
  | limitNotNumber
  | outOfRange (min_limit max_limit : ℕ)
deriving DecidableEq, Repr

/-- The `Result<String>` of `apply_throttle_power`, with the success
message abstracted to the applied milliwatt value it reports. -/
inductive ThrottleResult where
  | ok (limit : ℕ)
  | err (e : EnforceError)
deriving DecidableEq, Repr

/-- Result of `apply_throttle_power`: the `Result` value and the list of
`set_power_management_limit` invocations made on the device. -/
structure ThrottleOutcome where
  result : ThrottleResult
  set_calls : List ℕ
deriving DecidableEq, Repr

/-- Rust saturating float-to-`u32` cast (`expr as u32`): truncate toward
zero and clamp into `[0, 2^32 - 1]`. -/
def f64ToU32 (x : ℚ) : ℕ :=
  min (Int.toNat (Int.fdiv x.num x.den)) (2 ^ 32 - 1)

/-- Source `Enforcer::apply_throttle_power`, given the parsed `limit_watts`
parameter and the resolved device's constraints.  The source computes
`let limit_microwatts = (limit_watts * 1000.0) as u32`, rejects it when
outside `[min_limit, max_limit]`, and otherwise passes it to
`set_power_management_limit`. -/
def apply_throttle_power (limit_watts? : Option ℚ)
    (constraints : PowerConstraints) : ThrottleOutcome :=
  match limit_watts? with
  | none => ⟨.err .missingLimit, []⟩
  | some limit_watts =>
    let limit_microwatts := f64ToU32 (limit_watts * 1000)
    if limit_microwatts < constraints.min_limit ∨
        limit_microwatts > constraints.max_limit then
      ⟨.err (.outOfRange constraints.min_limit constraints.max_limit), []⟩
    else
      ⟨.ok limit_microwatts, [limit_microwatts]⟩

/-! ## Status data model — `src/crates/agent-core/src/state.rs`

`state.rs` in the tree declares `GpuStatus`/`StatusSnapshot` without the
`uuid`, `health`, `network_degraded` and `k8s_events_detected` fields that
`policy.rs`, `predictive.rs` and `rca.rs` dereference; those fields are
modelled from the spec's data model (GPU identity/health entities, the
K8s-events flag) exactly as the callers use them.  Only the fields the
claims touch are carried. -/

/-- GPU health block (`gpu.health`) as read by `predictive.rs`. -/
structure GpuHealth where
  ecc_corrected_aggregate : Option ℕ
  ecc_uncorrected_aggregate : Option ℕ
  throttle_reasons : List String
  retired_pages : Option ℕ
deriving DecidableEq, Repr

/-- Per-GPU status entry of the snapshot. -/
structure GpuStatus where
  gpu : String
  uuid : Option String
  temperature_celsius : Option ℚ
  util_percent : Option ℚ
  thermal_throttle : Bool
  health : Option GpuHealth
deriving DecidableEq, Repr

/-- Status snapshot fields consumed by the policy/RCA/predictive layers. -/
structure StatusSnapshot where
  gpus : List GpuStatus
  network_degraded : Bool
  k8s_events_detected : Bool
deriving DecidableEq, Repr

/-! ## Policy engine — `src/crates/agent-core/src/policy.rs` -/

/-- Rust `str::split_whitespace`, on the character list: maximal runs of
non-whitespace characters, empty runs skipped. -/
def splitWSAux : List Char → List Char → List (List Char)
  | [], acc => if acc.isEmpty then [] else [acc.reverse]
  | c :: cs, acc =>
    if c.isWhitespace then
      if acc.isEmpty then splitWSAux cs []
      else acc.reverse :: splitWSAux cs []
    else splitWSAux cs (c :: acc)

/-- Whitespace split of a condition string's characters. -/
def splitWS (s : List Char) : List (List Char) := splitWSAux s []

/-- Decimal value of a digit run. -/
def natOfDigits (l : List Char) : ℕ :=
  l.foldl (fun a c => a * 10 + (c.toNat - 48)) 0

/-- Fragment of Rust `f64::from_str` used by the condition grammar:
optional sign, integer digits, optional `.` and fraction digits; exponent
notation, `inf` and `NaN` are outside the modelled fragment. -/
def parseUnsigned? (s : List Char) : Option ℚ :=
  let intPart := s.takeWhile Char.isDigit
  let rest := s.dropWhile Char.isDigit
  match rest with
  | [] => if intPart.isEmpty then none else some ((natOfDigits intPart : ℕ) : ℚ)
  | '.' :: frac =>
    if frac.all Char.isDigit && !(intPart.isEmpty && frac.isEmpty) then
      some (((natOfDigits intPart : ℕ) : ℚ) +
        ((natOfDigits frac : ℕ) : ℚ) / (10 ^ frac.length : ℚ))
    else none
  | _ => none

/-- Signed numeric parse (`val_str.parse::<f64>()`). -/
def parseF64? : List Char → Option ℚ
  | '-' :: rest => (parseUnsigned? rest).map (fun q => -q)
  | '+' :: rest => parseUnsigned? rest
  | s => parseUnsigned? s

/-- Constant `f64::EPSILON` = 2⁻⁵², used by the `=`/`!=` comparison arms. -/
def f64Epsilon : ℚ := 1 / 2 ^ 52

/-- The unit-stripping step `parts[1].replace(['%', 'C'], "")`: every `%`
and `C` character is removed. -/
def stripUnits (s : List Char) : List Char :=
  s.filter (fun c => !(c == '%' || c == 'C'))

/-- Source `check_condition` from `policy.rs`: split on whitespace, fewer than
two parts yields `(false, 0.0)`; otherwise strip units from the second
part, parse it (`unwrap_or(0.0)`), and compare with the operator; an
unknown operator yields `false`. -/
def check_condition (current : ℚ) (condition : String) : Bool × ℚ :=
  let parts := splitWS condition.data
  if parts.length < 2 then (false, 0)
  else
    let op := parts.getD 0 []
    let val_str := stripUnits (parts.getD 1 [])
    let threshold := (parseF64? val_str).getD 0
    let violated : Bool :=
      if op = ['>'] then decide (current > threshold)
      else if op = ['>', '='] then decide (current ≥ threshold)
      else if op = ['<'] then decide (current < threshold)
      else if op = ['<', '='] then decide (current ≤ threshold)
      else if op = ['='] ∨ op = ['=', '='] then
        decide (|current - threshold| < f64Epsilon)
      else if op = ['!', '='] then decide (|current - threshold| > f64Epsilon)
      else false
    (violated, threshold)

/-- Policy target enum. -/
inductive PolicyTarget where
  | GpuTempCelsius
  | GpuUtilization
  | GpuPowerWatts
  | MemoryAllocatedPercent
  | TokensPerWatt
deriving DecidableEq, Repr

/-- Action type enum. -/
inductive ActionType where
  | ThrottlePower
  | LockClock
  | Alert
  | KillProcess
  | MigratePod
deriving DecidableEq, Repr

/-- Source `PolicyAction`; the free-form parameter map is not needed by the plan
phase beyond being echoed into the action description, so only the type
tag is carried. -/
structure PolicyAction where
  action_type : ActionType
deriving DecidableEq, Repr

/-- One policy of a profile (fields used by `plan`). -/
structure PolicyRule where
  name : String
  target : PolicyTarget
  condition : String
  action : PolicyAction
deriving DecidableEq, Repr

/-- Plan status enum. -/
inductive PlanStatus where
  | Satisfied
  | Violated
  | Skipped
deriving DecidableEq, Repr

/-- One row of the plan result.  The source renders `current_value` and
`threshold` as formatted strings (`"85.0C"`, `"80.0%"`, `"N/A"`); here
the numeric value is kept (`none` for `"N/A"` and for the skipped-branch
raw condition echo), and `computed_action` keeps the described action's
type tag instead of the formatted description. -/
structure PolicyPlan where
  policy_name : String
  target_resource : String
  current_value : Option ℚ
  threshold : Option ℚ
  status : PlanStatus
  computed_action : Option ActionType
deriving DecidableEq, Repr

/-- Loop body of `plan` for a `gpu_temp_celsius` policy and one GPU:
missing temperature reads as `0.0` (`unwrap_or(0.0)`). -/
def planGpuTemp (policy : PolicyRule) (gpu : GpuStatus) : PolicyPlan :=
  let current := gpu.temperature_celsius.getD 0
  let vc := check_condition current policy.condition
  { policy_name := policy.name
    target_resource := "GPU-" ++ gpu.uuid.getD gpu.gpu
    current_value := some current
    threshold := some vc.2
    status := if vc.1 then .Violated else .Satisfied
    computed_action := if vc.1 then some policy.action.action_type else none }

/-- Loop body of `plan` for a `gpu_utilization` policy and one GPU:
missing utilization reads as `0.0` (`unwrap_or(0.0)`). -/
def planGpuUtil (policy : PolicyRule) (gpu : GpuStatus) : PolicyPlan :=
  let current := gpu.util_percent.getD 0
  let vc := check_condition current policy.condition
  { policy_name := policy.name
    target_resource := "GPU-" ++ gpu.uuid.getD gpu.gpu
    current_value := some current
    threshold := some vc.2
    status := if vc.1 then .Violated else .Satisfied
    computed_action := if vc.1 then some policy.action.action_type else none }

/-- Dispatch of `plan` on the policy target: temperature and utilization
iterate the GPUs; all other targets produce the single `Skipped`
placeholder row. -/
def PolicyRule.planOne (policy : PolicyRule) (status : StatusSnapshot) :
    List PolicyPlan :=
  match policy.target with
  | .GpuTempCelsius => status.gpus.map (planGpuTemp policy)
  | .GpuUtilization => status.gpus.map (planGpuUtil policy)
  | _ => [{ policy_name := policy.name
            target_resource := "ALL"
            current_value := none
            threshold := none
            status := .Skipped
            computed_action := none }]

/-- Profile metadata (name only is used by `plan`). -/
structure ProfileMetadata where
  name : String
deriving DecidableEq, Repr

/-- An efficiency profile: metadata plus ordered policies. -/
structure EfficiencyProfile where
  metadata : ProfileMetadata
  policies : List PolicyRule
deriving DecidableEq, Repr

/-- Source `PlanResult`. -/
structure PlanResult where
  profile_name : String
  matched_policies : List PolicyPlan
deriving DecidableEq, Repr

/-- Source `EfficiencyProfile::plan`: every policy contributes its rows in
order. -/
def EfficiencyProfile.plan (p : EfficiencyProfile) (status : StatusSnapshot) :
    PlanResult :=
  { profile_name := p.metadata.name
    matched_policies := p.policies.flatMap (fun pol => pol.planOne status) }

/-! ## Status error ring — `src/crates/agent-core/src/state.rs` -/

/-- One entry of the `last_errors` ring. -/
structure CollectorError where
  collector : String
  message : String
  unix_ms : ℕ
deriving DecidableEq, Repr

/-- Source `StatusState::record_error` acting on the `last_errors` vector: push
the new entry at the back, then if the length exceeds 10 remove the entry
at index 0 (the oldest). -/
def record_error (errors : List CollectorError) (e : CollectorError) :
    List CollectorError :=
  let errors := errors ++ [e]
  if errors.length > 10 then errors.drop 1 else errors

/-- Projection `snapshot().last_errors`: the deep copy of the ring handed out by
`StatusState::snapshot` (copying is the identity on the value). -/
def snapshot_last_errors (errors : List CollectorError) :
    List CollectorError := errors

/-! ## Failure-risk predictor — `src/crates/agent-core/src/predictive.rs` -/

/-- Per-GPU history rings of `FailureRiskPredictor` (timestamps as `ℕ`
instants; the cached `last_assessment` is not part of the ring model). -/
structure GpuHistory where
  ecc_corrected_aggr : List (ℕ × ℕ)
  ecc_uncorrected_aggr : List (ℕ × ℕ)
  throttle_events : List (ℕ × String)
deriving DecidableEq, Repr

/-- One of the `while let` prune loops in `analyze`: pop front entries
while `now.duration_since(ts) > window_duration` (saturating). -/
def pruneRing {α : Type} (now window : ℕ) (ring : List (ℕ × α)) :
    List (ℕ × α) :=
  ring.dropWhile (fun e => decide (now - e.1 > window))

/-- The history mutation performed by `FailureRiskPredictor::analyze` for
one GPU: the source prunes `ecc_corrected_aggr` and `throttle_events`
(there is no prune loop for `ecc_uncorrected_aggr`), then appends the
current corrected/uncorrected aggregates and one entry per current
throttle reason. -/
def analyze_update_history (now window : ℕ) (gpu : GpuStatus)
    (h : GpuHistory) : GpuHistory :=
  let h := { h with
    ecc_corrected_aggr := pruneRing now window h.ecc_corrected_aggr
    throttle_events := pruneRing now window h.throttle_events }
  match gpu.health with
  | none => h
  | some hh =>
    let h := match hh.ecc_corrected_aggregate with
      | some c =>
        { h with ecc_corrected_aggr := h.ecc_corrected_aggr ++ [(now, c)] }
      | none => h
    let h := match hh.ecc_uncorrected_aggregate with
      | some u =>
        { h with
          ecc_uncorrected_aggr := h.ecc_uncorrected_aggr ++ [(now, u)] }
      | none => h
    { h with
      throttle_events :=
        h.throttle_events ++ hh.throttle_reasons.map (fun r => (now, r)) }

/-! ## RCA engine — `src/crates/agent-core/src/rca.rs` -/

/-- Root causes. -/
inductive RootCause where
  | NetworkLatency
  | ThermalThrottling
  | PowerThrottling
  | KubernetesEvents
  | Unknown
deriving DecidableEq, Repr

/-- An emitted RCA event: the GPU index named in the description, the
cause and the confidence (the `Instant` timestamp and the description
string are omitted). -/
structure RcaEvent where
  gpu_index : ℕ
  cause : RootCause
  confidence : ℚ
deriving DecidableEq, Repr

/-- Source `RcaEngine::check_network_cause`: any of the last (up to) 3 buffered
snapshots flags network degradation. -/
def check_network_cause (samples : List StatusSnapshot) : Bool :=
  (samples.reverse.take 3).any (fun s => s.network_degraded)

/-- Default used when indexing the window (never reached when the length
precondition holds). -/
def emptySnapshot : StatusSnapshot := ⟨[], false, false⟩

/-- Loop body of `RcaEngine::analyze` for one GPU index of the latest
snapshot: detect the utilization dip and pick the first matching cause in
priority order. -/
def rca_event_for (samples : List StatusSnapshot) (latest prev : StatusSnapshot)
    (idx : ℕ) : Option RcaEvent :=
  match latest.gpus[idx]?, prev.gpus[idx]? with
  | some gpu, some prev_gpu =>
    let curr_util := gpu.util_percent.getD 0
    let prev_util := prev_gpu.util_percent.getD 0
    if prev_util > 50 ∧ curr_util < prev_util - 20 then
      if check_network_cause samples then some ⟨idx, .NetworkLatency, 8/10⟩
      else if gpu.thermal_throttle then some ⟨idx, .ThermalThrottling, 1⟩
      else if latest.k8s_events_detected then
        some ⟨idx, .KubernetesEvents, 9/10⟩
      else none
    else none
  | _, _ => none

/-- Source `RcaEngine::analyze` over the buffered window (oldest first): fewer
than 2 samples yields no events; otherwise each GPU index of the latest
snapshot is compared against the previous snapshot. -/
def RcaEngine.analyze (samples : List StatusSnapshot) : List RcaEvent :=
  if samples.length < 2 then []
  else
    (List.range
        (samples.getD (samples.length - 1) emptySnapshot).gpus.length).filterMap
      (rca_event_for samples (samples.getD (samples.length - 1) emptySnapshot)
        (samples.getD (samples.length - 2) emptySnapshot))

/-! ## Counter delta derivation — `src/crates/agent-core/src/collectors/gpu.rs`
and `network.rs` -/

/-- Per-key persistent state for a delta-derived registry counter: the
previously observed source total (`ecc_prev` / `previous`) and the
exported monotone registry counter. -/
structure DeltaCounterState where
  prev : ℕ
  registry_total : ℕ
deriving DecidableEq, Repr

/-- One tick of the ECC aggregate logic in `GpuCollector::collect`: when
`total >= prev` the registry counter is incremented by `total - prev`
(otherwise it is left unchanged), and `prev` becomes `total`. -/
def ecc_tick (st : DeltaCounterState) (total : ℕ) : DeltaCounterState :=
  { prev := total
    registry_total :=
      if total ≥ st.prev then st.registry_total + (total - st.prev)
      else st.registry_total }

/-- One tick of `NetworkCollector::collect` for one interface counter:
`delta = current.saturating_sub(prev)` is added to the registry counter
and `prev` becomes `current`. -/
def net_tick (st : DeltaCounterState) (current : ℕ) : DeltaCounterState :=
  { prev := current
    registry_total := st.registry_total + (current - st.prev) }

end ESNODE

namespace ESNODE

/-- Unfolding of `apply_throttle_power` on a present limit parameter. -/
lemma apply_throttle_power_some (L : ℚ) (c : PowerConstraints) :
    apply_throttle_power (some L) c =
      if f64ToU32 (L * 1000) < c.min_limit ∨
          f64ToU32 (L * 1000) > c.max_limit then
        ⟨.err (.outOfRange c.min_limit c.max_limit), []⟩
      else
        ⟨.ok (f64ToU32 (L * 1000)), [f64ToU32 (L * 1000)]⟩ := rfl

/-- The saturating cast evaluated on a whole number of milliwatts. -/
lemma f64ToU32_natCast (m : ℕ) : f64ToU32 ((m : ℚ)) = min m (2 ^ 32 - 1) := by
  rw [f64ToU32, Rat.num_natCast, Rat.den_natCast, Nat.cast_one, Int.fdiv_one,
    Int.toNat_natCast]

/-- A 300 W request converts to 300 000 (milliwatts). -/
lemma f64ToU32_300000 : f64ToU32 ((300 : ℚ) * 1000) = 300000 := by
  have h : ((300 : ℚ) * 1000) = ((300000 : ℕ) : ℚ) := by norm_num
  rw [h, f64ToU32_natCast]
  norm_num

/-- A 1000 W request converts to 1 000 000 (milliwatts). -/
lemma f64ToU32_1000000 : f64ToU32 ((1000 : ℚ) * 1000) = 1000000 := by
  have h : ((1000 : ℚ) * 1000) = ((1000000 : ℕ) : ℚ) := by norm_num
  rw [h, f64ToU32_natCast]
  norm_num

/-- C1: the claim asserts `calculate_pue ∈ [1, 10]` whenever both summed
powers are positive; the code only warns when `pue < 1` and returns the
sub-1 value unchanged, so IT 1000 W with facility 500 W yields 1/2. -/
theorem calculate_pue_counterexample :
    0 < (PueCalculator.mk [("server-1", 1000)] [("pdu-1", 500)]).total_it_power ∧
    0 < (PueCalculator.mk [("server-1", 1000)] [("pdu-1", 500)]).total_facility_power ∧
    (PueCalculator.mk [("server-1", 1000)] [("pdu-1", 500)]).calculate_pue = 1/2 ∧
    ¬ (1 ≤ (PueCalculator.mk [("server-1", 1000)] [("pdu-1", 500)]).calculate_pue) := by
  refine ⟨by norm_num [PueCalculator.total_it_power], by
    norm_num [PueCalculator.total_facility_power], ?_, ?_⟩ <;>
    norm_num [PueCalculator.calculate_pue, PueCalculator.total_it_power,
      PueCalculator.total_facility_power]

/-- C1 (amended): whenever the summed IT power and the summed facility
power are both positive, `calculate_pue` returns exactly the quotient
facility/IT capped above at 10 — a value in `(0, 10]` that equals
facility/IT whenever that quotient is ≤ 10 (so a value below 1 is
returned unchanged), equals exactly 10 whenever the quotient exceeds 10,
and is at least 1 precisely when the facility sum is at least the IT
sum; a non-positive IT sum yields 0. -/
theorem calculate_pue_spec (c : PueCalculator)
    (hit : 0 < c.total_it_power) (hfac : 0 < c.total_facility_power) :
    c.calculate_pue =
      min (c.total_facility_power / c.total_it_power) 10 ∧
    0 < c.calculate_pue ∧ c.calculate_pue ≤ 10 ∧
    (1 ≤ c.calculate_pue ↔
      c.total_it_power ≤ c.total_facility_power) ∧
    (c.total_facility_power / c.total_it_power ≤ 10 →
      c.calculate_pue = c.total_facility_power / c.total_it_power) ∧
    (10 < c.total_facility_power / c.total_it_power → c.calculate_pue = 10) ∧
    (∀ c' : PueCalculator, c'.total_it_power ≤ 0 → c'.calculate_pue = 0) := by
  have hit' : ¬ c.total_it_power ≤ 0 := not_le.mpr hit
  have hdiv : 0 < c.total_facility_power / c.total_it_power := div_pos hfac hit
  have hzero : ∀ c' : PueCalculator, c'.total_it_power ≤ 0 → c'.calculate_pue = 0 := by
    intro c' hle
    unfold PueCalculator.calculate_pue
    simp [hle]
  unfold PueCalculator.calculate_pue
  simp only [hit', if_false]
  by_cases hp : c.total_facility_power / c.total_it_power > 10
  · rw [if_pos hp]
    refine ⟨(min_eq_right hp.le).symm, by norm_num, le_refl 10, ?_,
      fun hle => absurd hp (not_lt.mpr hle), fun _ => rfl, hzero⟩
    exact iff_of_true (by norm_num)
      ((one_le_div hit).mp (by linarith))
  · rw [if_neg hp]
    exact ⟨(min_eq_left (le_of_not_lt hp)).symm, hdiv, le_of_not_lt hp,
      one_le_div hit, fun _ => rfl, fun hgt => absurd hgt hp, hzero⟩

/-- C2: the claim asserts the device receives the limit in micro-watts
(`L × 1,000,000`); the source computes `(limit_watts * 1000.0) as u32`,
so a 300 W request passes 300 000 (milliwatts), not 300 000 000. -/
theorem throttle_power_unit_counterexample :
    (apply_throttle_power (some 300) ⟨1, 2 ^ 32 - 1⟩).set_calls = [300000] ∧
    (apply_throttle_power (some 300) ⟨1, 2 ^ 32 - 1⟩).set_calls ≠ [300000000] := by
  rw [apply_throttle_power_some, if_neg (by rw [f64ToU32_300000]; norm_num)]
  simp [f64ToU32_300000]

/-- C2 (amended): when the limit parameter is a number `L` and the range
check passes, the value passed to `set_power_management_limit` is
`L × 1000` (the source's `limit_microwatts` variable actually holds
milliwatts), saturating-cast to `u32`; for a whole-number `L` this is
exactly `min (L * 1000) (2^32 - 1)`. -/
theorem throttle_power_limit_value (L : ℚ) (c : PowerConstraints)
    (h1 : c.min_limit ≤ f64ToU32 (L * 1000))
    (h2 : f64ToU32 (L * 1000) ≤ c.max_limit) :
    (apply_throttle_power (some L) c).set_calls = [f64ToU32 (L * 1000)] ∧
    (apply_throttle_power (some L) c).result = .ok (f64ToU32 (L * 1000)) ∧
    (∀ n : ℕ, f64ToU32 ((n : ℚ) * 1000) = min (n * 1000) (2 ^ 32 - 1)) := by
  have hnot : ¬(f64ToU32 (L * 1000) < c.min_limit ∨
      f64ToU32 (L * 1000) > c.max_limit) := by
    push_neg
    exact ⟨h1, h2⟩
  refine ⟨?_, ?_, ?_⟩
  · rw [apply_throttle_power_some, if_neg hnot]
  · rw [apply_throttle_power_some, if_neg hnot]
  · intro n
    have hcast : ((n : ℚ) * 1000) = ((n * 1000 : ℕ) : ℚ) := by push_cast; ring
    rw [hcast, f64ToU32_natCast]

/-- C2 (witness): a 300 W request against constraints `[1, 2^32-1]` mW
performs exactly one set call with value 300 000. -/
theorem throttle_power_limit_value_witness :
    (⟨1, 2 ^ 32 - 1⟩ : PowerConstraints).min_limit ≤ f64ToU32 (300 * 1000) ∧
    f64ToU32 (300 * 1000) ≤ (⟨1, 2 ^ 32 - 1⟩ : PowerConstraints).max_limit ∧
    ((apply_throttle_power (some 300) ⟨1, 2 ^ 32 - 1⟩).set_calls =
        [f64ToU32 (300 * 1000)] ∧
      (apply_throttle_power (some 300) ⟨1, 2 ^ 32 - 1⟩).result =
        .ok (f64ToU32 (300 * 1000)) ∧
      (∀ n : ℕ, f64ToU32 ((n : ℚ) * 1000) = min (n * 1000) (2 ^ 32 - 1))) :=
  ⟨by simp [f64ToU32_300000], by simp [f64ToU32_300000],
   throttle_power_limit_value 300 ⟨1, 2 ^ 32 - 1⟩ (by simp [f64ToU32_300000])
     (by simp [f64ToU32_300000])⟩

/-- C6: an out-of-range throttle request returns the range error carrying
the device's valid constraint range and performs no
`set_power_management_limit` call. -/
theorem throttle_power_out_of_range (L : ℚ) (c : PowerConstraints)
    (h : f64ToU32 (L * 1000) < c.min_limit ∨
      f64ToU32 (L * 1000) > c.max_limit) :
    (apply_throttle_power (some L) c).result =
      .err (.outOfRange c.min_limit c.max_limit) ∧
    (apply_throttle_power (some L) c).set_calls = [] := by
  rw [apply_throttle_power_some, if_pos h]
  exact ⟨rfl, rfl⟩

/-- C6 (witness): a 1000 W request against a 100 W – 300 W device is
rejected with the range error and no hardware call. -/
theorem throttle_power_out_of_range_witness :
    (f64ToU32 (1000 * 1000) < (⟨100000, 300000⟩ : PowerConstraints).min_limit ∨
      f64ToU32 (1000 * 1000) > (⟨100000, 300000⟩ : PowerConstraints).max_limit) ∧
    ((apply_throttle_power (some 1000) ⟨100000, 300000⟩).result =
        .err (.outOfRange 100000 300000) ∧
      (apply_throttle_power (some 1000) ⟨100000, 300000⟩).set_calls = []) :=
  ⟨by simp [f64ToU32_1000000],
   throttle_power_out_of_range 1000 ⟨100000, 300000⟩
     (by simp [f64ToU32_1000000])⟩

/-- C4: condition evaluation is boundary-exact: for a condition whose
split is `">"` (resp. `">="`) followed by a token whose unit characters
strip to a numeral parsing to `t`, the result is Violated iff `x > t`
(resp. `x ≥ t`); in particular `"> 80"` at 80 is Satisfied, at 80.01
Violated, `">= 80"` at 80 Violated, and trailing `%`/`C` units are
stripped before the comparison. -/
theorem check_condition_boundary_exact :
    (∀ (x t : ℚ) (s : String) (n : List Char),
      splitWS s.data = [['>'], n] →
      parseF64? (stripUnits n) = some t →
      ((check_condition x s).1 = true ↔ x > t)) ∧
    (∀ (x t : ℚ) (s : String) (n : List Char),
      splitWS s.data = [['>', '='], n] →
      parseF64? (stripUnits n) = some t →
      ((check_condition x s).1 = true ↔ x ≥ t)) ∧
    (check_condition 80 "> 80").1 = false ∧
    (check_condition (8001/100) "> 80").1 = true ∧
    (check_condition 80 ">= 80").1 = true ∧
    (check_condition 80 "> 80%").1 = false ∧
    (check_condition 80 ">= 80C").1 = true := by
  have hgt : ∀ (x t : ℚ) (s : String) (n : List Char),
      splitWS s.data = [['>'], n] →
      parseF64? (stripUnits n) = some t →
      ((check_condition x s).1 = true ↔ x > t) := by
    intro x t s n h1 h2
    simp [check_condition, h1, h2]
  have hge : ∀ (x t : ℚ) (s : String) (n : List Char),
      splitWS s.data = [['>', '='], n] →
      parseF64? (stripUnits n) = some t →
      ((check_condition x s).1 = true ↔ x ≥ t) := by
    intro x t s n h1 h2
    simp [check_condition, h1, h2]
  refine ⟨hgt, hge, by decide, ?_, by decide, by decide, by decide⟩
  exact (hgt (8001/100) 80 "> 80" ['8', '0'] (by decide) (by decide)).mpr
    (by norm_num)

/-- C4 (witness): applying the general `">"` direction at reading 81,
threshold token `"80"`. -/
theorem check_condition_boundary_exact_witness :
    splitWS "> 80".data = [['>'], ['8', '0']] ∧
    parseF64? (stripUnits ['8', '0']) = some 80 ∧
    ((check_condition 81 "> 80").1 = true ↔ (81 : ℚ) > 80) :=
  ⟨by decide, by decide,
   check_condition_boundary_exact.1 81 80 "> 80" ['8', '0'] (by decide)
     (by decide)⟩

/-- C5: the claim asserts malformed conditions are rejected with an
error; `check_condition` instead silently yields `(false, 0.0)` and
`plan` reports the policy as Satisfied with an invented threshold `0` —
here on the nonsense condition `"definitely not a condition"`. -/
theorem malformed_condition_counterexample :
    (EfficiencyProfile.plan
        ⟨⟨"prof"⟩, [⟨"p", .GpuUtilization, "definitely not a condition",
          ⟨.Alert⟩⟩]⟩
        ⟨[⟨"0", none, none, some 50, false, none⟩], false, false⟩).matched_policies =
      [⟨"p", "GPU-0", some 50, some 0, .Satisfied, none⟩] := by
  decide

/-- C5 (amended): planning never rejects a malformed condition: a
condition with fewer than two whitespace parts evaluates to
`(false, 0.0)`, an unknown operator evaluates as not violated, and an
unparsable threshold token is replaced by `0.0`; the policy is then
reported Satisfied rather than erroring. -/
theorem malformed_condition_behavior :
    (∀ (x : ℚ) (s : String), (splitWS s.data).length < 2 →
      check_condition x s = (false, 0)) ∧
    (∀ (x : ℚ) (s : String) (op n : List Char) (rest : List (List Char)),
      splitWS s.data = op :: n :: rest →
      op ∉ ([['>'], ['>', '='], ['<'], ['<', '='], ['='], ['=', '='],
        ['!', '=']] : List (List Char)) →
      (check_condition x s).1 = false) ∧
    (∀ (x : ℚ) (s : String) (op n : List Char) (rest : List (List Char)),
      splitWS s.data = op :: n :: rest →
      parseF64? (stripUnits n) = none →
      (check_condition x s).2 = 0) := by
  refine ⟨?_, ?_, ?_⟩
  · intro x s h
    simp [check_condition, h]
  · intro x s op n rest h hop
    simp only [List.mem_cons, List.mem_singleton, not_or] at hop
    obtain ⟨h1, h2, h3, h4, h5, h6, h7, -⟩ := hop
    simp [check_condition, h, h1, h2, h3, h4, h5, h6, h7]
    split <;> rfl
  · intro x s op n rest h hparse
    by_cases h1 : op = ['>']
    · simp [check_condition, h, h1, hparse]
      split <;> rfl
    · by_cases h2 : op = ['>', '=']
      · simp [check_condition, h, h2, hparse]
        split <;> rfl
      · simp [check_condition, h, h1, h2, hparse]
        split <;> rfl

/-- C5 (witness): the three amended clauses at the concrete malformed
conditions `"garbage"`, `"~ 80"` and `"> abc"` at reading 50. -/
theorem malformed_condition_behavior_witness :
    (splitWS "garbage".data).length < 2 ∧
    check_condition 50 "garbage" = (false, 0) ∧
    splitWS "~ 80".data = [['~'], ['8', '0']] ∧
    (['~'] ∉ ([['>'], ['>', '='], ['<'], ['<', '='], ['='], ['=', '='],
      ['!', '=']] : List (List Char))) ∧
    (check_condition 50 "~ 80").1 = false ∧
    splitWS "> abc".data = [['>'], ['a', 'b', 'c']] ∧
    parseF64? (stripUnits ['a', 'b', 'c']) = none ∧
    (check_condition 50 "> abc").2 = 0 :=
  ⟨by decide, malformed_condition_behavior.1 50 "garbage" (by decide),
   by decide, by decide,
   malformed_condition_behavior.2.1 50 "~ 80" ['~'] ['8', '0'] []
     (by decide) (by decide),
   by decide, by decide,
   malformed_condition_behavior.2.2 50 "> abc" ['>'] ['a', 'b', 'c'] []
     (by decide) (by decide)⟩

/-- C10: a GPU whose relevant reading is absent is planned with
`current = 0.0`, not skipped: the plan row equals the row for the same
GPU reading exactly 0, and a `"< 5"` utilization policy marks a GPU with
no utilization reading Violated with a computed action. -/
theorem missing_reading_reads_zero :
    (∀ (policy : PolicyRule) (gpu : GpuStatus), gpu.util_percent = none →
      planGpuUtil policy gpu =
        planGpuUtil policy { gpu with util_percent := some 0 }) ∧
    (∀ (policy : PolicyRule) (gpu : GpuStatus),
      gpu.temperature_celsius = none →
      planGpuTemp policy gpu =
        planGpuTemp policy { gpu with temperature_celsius := some 0 }) ∧
    (∀ (policy : PolicyRule) (snap : StatusSnapshot) (gpu : GpuStatus),
      policy.target = .GpuUtilization → policy.condition = "< 5" →
      gpu ∈ snap.gpus → gpu.util_percent = none →
      planGpuUtil policy gpu ∈ policy.planOne snap ∧
      (planGpuUtil policy gpu).status = .Violated ∧
      (planGpuUtil policy gpu).computed_action =
        some policy.action.action_type ∧
      (planGpuUtil policy gpu).current_value = some 0) := by
  refine ⟨?_, ?_, ?_⟩
  · intro policy gpu h
    simp [planGpuUtil, h]
  · intro policy gpu h
    simp [planGpuTemp, h]
  · intro policy snap gpu htarget hcond hmem hutil
    have hcheck : check_condition 0 "< 5" = (true, 5) := by decide
    constructor
    · rcases policy with ⟨name, target, cond, act⟩
      cases htarget
      exact List.mem_map_of_mem _ hmem
    · refine ⟨?_, ?_, ?_⟩ <;>
        simp [planGpuUtil, hutil, hcond, hcheck]

/-- C10 (witness): a concrete `"< 5"` utilization policy against a
snapshot whose single GPU has no utilization reading. -/
theorem missing_reading_reads_zero_witness :
    (⟨"idle", .GpuUtilization, "< 5", ⟨.Alert⟩⟩ : PolicyRule).target =
      .GpuUtilization ∧
    (⟨"idle", .GpuUtilization, "< 5", ⟨.Alert⟩⟩ : PolicyRule).condition =
      "< 5" ∧
    (⟨"g0", none, none, none, false, none⟩ : GpuStatus) ∈
      (⟨[⟨"g0", none, none, none, false, none⟩], false, false⟩ :
        StatusSnapshot).gpus ∧
    (⟨"g0", none, none, none, false, none⟩ : GpuStatus).util_percent =
      none ∧
    (planGpuUtil ⟨"idle", .GpuUtilization, "< 5", ⟨.Alert⟩⟩
        ⟨"g0", none, none, none, false, none⟩ ∈
      (⟨"idle", .GpuUtilization, "< 5", ⟨.Alert⟩⟩ : PolicyRule).planOne
        ⟨[⟨"g0", none, none, none, false, none⟩], false, false⟩ ∧
      (planGpuUtil ⟨"idle", .GpuUtilization, "< 5", ⟨.Alert⟩⟩
        ⟨"g0", none, none, none, false, none⟩).status = .Violated ∧
      (planGpuUtil ⟨"idle", .GpuUtilization, "< 5", ⟨.Alert⟩⟩
        ⟨"g0", none, none, none, false, none⟩).computed_action =
        some ActionType.Alert ∧
      (planGpuUtil ⟨"idle", .GpuUtilization, "< 5", ⟨.Alert⟩⟩
        ⟨"g0", none, none, none, false, none⟩).current_value = some 0) :=
  ⟨rfl, rfl, by decide, rfl,
   missing_reading_reads_zero.2.2 ⟨"idle", .GpuUtilization, "< 5", ⟨.Alert⟩⟩
     ⟨[⟨"g0", none, none, none, false, none⟩], false, false⟩
     ⟨"g0", none, none, none, false, none⟩ rfl rfl (by decide) rfl⟩

/-- Closed form of folding `record_error` from the empty ring: the state
is always the last (up to) 10 recorded entries in arrival order. -/
lemma record_error_foldl_eq (es : List CollectorError) :
    es.foldl record_error [] = es.drop (es.length - 10) := by
  induction es using List.reverseRecOn with
  | nil => rfl
  | append_singleton es e ih =>
    rw [List.foldl_append, List.foldl_cons, List.foldl_nil, ih]
    simp only [record_error]
    by_cases hlen : 10 ≤ es.length
    · have hdlen : (es.drop (es.length - 10)).length = 10 := by
        rw [List.length_drop]
        omega
      have hgt : (es.drop (es.length - 10) ++ [e]).length > 10 := by
        rw [List.length_append, hdlen]
        simp
      rw [if_pos hgt]
      have h2 : (es.drop (es.length - 10) ++ [e]).drop 1 =
          (es.drop (es.length - 10)).drop 1 ++ [e] :=
        List.drop_append_of_le_length (by rw [hdlen]; norm_num)
      have h3 : (es ++ [e]).length - 10 = es.length - 10 + 1 := by
        rw [List.length_append]
        simp
        omega
      rw [h2, List.drop_drop, h3,
        List.drop_append_of_le_length (by omega)]
    · have h0 : es.length - 10 = 0 := by omega
      have h0' : (es ++ [e]).length - 10 = 0 := by
        rw [List.length_append]
        simp
        omega
      have hno : ¬((es ++ [e]).length > 10) := by
        rw [List.length_append]
        simp
        omega
      rw [h0, List.drop_zero, if_neg hno, h0', List.drop_zero]

/-- C7: over any sequence of `record_error` calls starting from the empty
ring, the ring length never exceeds 10; the ring holds exactly the most
recent entries in FIFO order (the last up-to-10 recorded entries, oldest
first); `snapshot` returns exactly this ring; and pushing onto a full
ring of 10 removes the oldest entry. -/
theorem record_error_ring_fifo (es : List CollectorError) :
    (es.foldl record_error []).length ≤ 10 ∧
    es.foldl record_error [] = es.drop (es.length - 10) ∧
    snapshot_last_errors (es.foldl record_error []) =
      es.drop (es.length - 10) ∧
    (∀ (l : List CollectorError) (e : CollectorError), l.length = 10 →
      record_error l e = l.drop 1 ++ [e]) := by
  refine ⟨?_, record_error_foldl_eq es, record_error_foldl_eq es, ?_⟩
  · rw [record_error_foldl_eq es, List.length_drop]
    omega
  · intro l e hl
    simp only [record_error]
    rw [if_pos (by rw [List.length_append, hl]; simp),
      List.drop_append_of_le_length (by rw [hl]; norm_num)]

/-- C7 (witness): pushing an 11th entry onto a full ring of 10 drops the
oldest entry. -/
theorem record_error_ring_fifo_witness :
    (List.replicate 10 (⟨"gpu", "err", 0⟩ : CollectorError)).length = 10 ∧
    record_error (List.replicate 10 (⟨"gpu", "err", 0⟩ : CollectorError))
        ⟨"net", "timeout", 1⟩ =
      (List.replicate 10 (⟨"gpu", "err", 0⟩ : CollectorError)).drop 1 ++
        [⟨"net", "timeout", 1⟩] :=
  ⟨by decide,
   (record_error_ring_fifo []).2.2.2
     (List.replicate 10 ⟨"gpu", "err", 0⟩) ⟨"net", "timeout", 1⟩
     (by decide)⟩

/-- C3: the claim says all three history rings are pruned to the window;
`analyze` prunes only `ecc_corrected_aggr` and `throttle_events` — an
uncorrected-ECC entry aged beyond the window (timestamp 0, now 7201,
window 3600) survives the update while equally old entries in the other
two rings are removed. -/
theorem analyze_unpruned_uncorrected_ring :
    analyze_update_history 7201 3600
        ⟨"0", some "GPU-1", none, none, false, none⟩
        ⟨[(0, 1)], [(0, 5)], [(0, "thermal")]⟩ =
      ⟨[], [(0, 5)], []⟩ ∧
    7201 - 0 > 3600 := by
  decide

/-- The loop body tags every event it emits with its own GPU index. -/
lemma rca_event_for_gpu_index (samples : List StatusSnapshot)
    (latest prev : StatusSnapshot) (idx : ℕ) (e : RcaEvent)
    (h : rca_event_for samples latest prev idx = some e) :
    e.gpu_index = idx := by
  unfold rca_event_for at h
  cases hg : latest.gpus[idx]? with
  | none => rw [hg] at h; simp at h
  | some gpu =>
    cases hp : prev.gpus[idx]? with
    | none => rw [hg, hp] at h; simp at h
    | some prev_gpu =>
      rw [hg, hp] at h
      simp only [] at h
      split_ifs at h with h1 h2 h3 h4 <;> (cases h; rfl)

/-- The loop body emits only on a utilization dip, choosing the first
matching cause in priority order with its fixed confidence. -/
lemma rca_event_for_spec (samples : List StatusSnapshot)
    (latest prev : StatusSnapshot) (idx : ℕ) (e : RcaEvent)
    (h : rca_event_for samples latest prev idx = some e) :
    ∃ gpu prev_gpu, latest.gpus[idx]? = some gpu ∧
      prev.gpus[idx]? = some prev_gpu ∧
      prev_gpu.util_percent.getD 0 > 50 ∧
      gpu.util_percent.getD 0 < prev_gpu.util_percent.getD 0 - 20 ∧
      ((e.cause = .NetworkLatency ∧ e.confidence = 8/10 ∧
          check_network_cause samples = true) ∨
        (e.cause = .ThermalThrottling ∧ e.confidence = 1 ∧
          check_network_cause samples = false ∧ gpu.thermal_throttle = true) ∨
        (e.cause = .KubernetesEvents ∧ e.confidence = 9/10 ∧
          check_network_cause samples = false ∧
          gpu.thermal_throttle = false ∧
          latest.k8s_events_detected = true)) := by
  unfold rca_event_for at h
  cases hg : latest.gpus[idx]? with
  | none => rw [hg] at h; simp at h
  | some gpu =>
    cases hp : prev.gpus[idx]? with
    | none => rw [hg, hp] at h; simp at h
    | some prev_gpu =>
      rw [hg, hp] at h
      simp only [] at h
      refine ⟨gpu, prev_gpu, rfl, rfl, ?_⟩
      split_ifs at h with h1 h2 h3 h4
      · cases h
        exact ⟨h1.1, h1.2, Or.inl ⟨rfl, rfl, h2⟩⟩
      · cases h
        exact ⟨h1.1, h1.2,
          Or.inr (Or.inl ⟨rfl, rfl, Bool.not_eq_true _ ▸ (by simpa using h2), h3⟩)⟩
      · cases h
        exact ⟨h1.1, h1.2,
          Or.inr (Or.inr ⟨rfl, rfl, by simpa using h2, by simpa using h3, h4⟩)⟩

/-- When a dip coincides with recent network degradation, the
network-latency event for that index is emitted. -/
lemma rca_event_for_network (samples : List StatusSnapshot)
    (latest prev : StatusSnapshot) (idx : ℕ) (gpu prev_gpu : GpuStatus)
    (hg : latest.gpus[idx]? = some gpu) (hp : prev.gpus[idx]? = some prev_gpu)
    (hd1 : prev_gpu.util_percent.getD 0 > 50)
    (hd2 : gpu.util_percent.getD 0 < prev_gpu.util_percent.getD 0 - 20)
    (hnet : check_network_cause samples = true) :
    rca_event_for samples latest prev idx =
      some ⟨idx, .NetworkLatency, 8/10⟩ := by
  unfold rca_event_for
  rw [hg, hp]
  simp only []
  rw [if_pos ⟨hd1, hd2⟩, if_pos hnet]

/-- C9: with at least 2 buffered snapshots, `analyze` emits at most one
event per GPU index; every event corresponds to a utilization dip
(previous > 50 and current < previous − 20) and carries the first
matching cause in priority order — NetworkLatency (0.8), then
ThermalThrottling (1.0), then KubernetesEvents (0.9); a dip with recent
network degradation always yields the NetworkLatency event; and the
network check holds iff one of the last 3 buffered snapshots is
degraded. -/
theorem rca_analyze_events (samples : List StatusSnapshot)
    (hlen : 2 ≤ samples.length) :
    (RcaEngine.analyze samples).Pairwise
      (fun a b => a.gpu_index ≠ b.gpu_index) ∧
    (∀ e ∈ RcaEngine.analyze samples,
      ∃ gpu prev_gpu,
        (samples.getD (samples.length - 1)
          emptySnapshot).gpus[e.gpu_index]? = some gpu ∧
        (samples.getD (samples.length - 2)
          emptySnapshot).gpus[e.gpu_index]? = some prev_gpu ∧
        prev_gpu.util_percent.getD 0 > 50 ∧
        gpu.util_percent.getD 0 < prev_gpu.util_percent.getD 0 - 20 ∧
        ((e.cause = .NetworkLatency ∧ e.confidence = 8/10 ∧
            check_network_cause samples = true) ∨
          (e.cause = .ThermalThrottling ∧ e.confidence = 1 ∧
            check_network_cause samples = false ∧
            gpu.thermal_throttle = true) ∨
          (e.cause = .KubernetesEvents ∧ e.confidence = 9/10 ∧
            check_network_cause samples = false ∧
            gpu.thermal_throttle = false ∧
            (samples.getD (samples.length - 1)
              emptySnapshot).k8s_events_detected = true))) ∧
    (∀ (idx : ℕ) (gpu prev_gpu : GpuStatus),
      (samples.getD (samples.length - 1) emptySnapshot).gpus[idx]? =
        some gpu →
      (samples.getD (samples.length - 2) emptySnapshot).gpus[idx]? =
        some prev_gpu →
      prev_gpu.util_percent.getD 0 > 50 →
      gpu.util_percent.getD 0 < prev_gpu.util_percent.getD 0 - 20 →
      check_network_cause samples = true →
      (⟨idx, .NetworkLatency, 8/10⟩ : RcaEvent) ∈ RcaEngine.analyze samples) ∧
    (check_network_cause samples = true ↔
      ∃ s ∈ samples.drop (samples.length - 3), s.network_degraded = true) := by
  have hnlt : ¬ samples.length < 2 := by omega
  have hana : RcaEngine.analyze samples =
      (List.range
        (samples.getD (samples.length - 1) emptySnapshot).gpus.length).filterMap
        (rca_event_for samples
          (samples.getD (samples.length - 1) emptySnapshot)
          (samples.getD (samples.length - 2) emptySnapshot)) := by
    unfold RcaEngine.analyze
    rw [if_neg hnlt]
  refine ⟨?_, ?_, ?_, ?_⟩
  · rw [hana]
    refine List.Pairwise.filterMap _ ?_ (List.pairwise_lt_range _)
    intro a a' haa b hb b' hb'
    have h1 := rca_event_for_gpu_index _ _ _ _ _ (Option.mem_def.mp hb)
    have h2 := rca_event_for_gpu_index _ _ _ _ _ (Option.mem_def.mp hb')
    rw [h1, h2]
    exact Nat.ne_of_lt haa
  · intro e he
    rw [hana] at he
    obtain ⟨idx, hidx, hfe⟩ := List.mem_filterMap.mp he
    have hgi := rca_event_for_gpu_index _ _ _ _ _ hfe
    obtain ⟨gpu, prev_gpu, hg, hp, hd1, hd2, hcause⟩ :=
      rca_event_for_spec _ _ _ _ _ hfe
    exact ⟨gpu, prev_gpu, by rw [hgi]; exact hg, by rw [hgi]; exact hp,
      hd1, hd2, hcause⟩
  · intro idx gpu prev_gpu hg hp hd1 hd2 hnet
    rw [hana]
    refine List.mem_filterMap.mpr ⟨idx, ?_, ?_⟩
    · obtain ⟨hlt, -⟩ := List.getElem?_eq_some_iff.mp hg
      exact List.mem_range.mpr hlt
    · exact rca_event_for_network _ _ _ _ _ _ hg hp hd1 hd2 hnet
  · unfold check_network_cause
    rw [List.take_reverse]
    simp [List.any_eq_true]

/-- C9 (witness): a two-snapshot window where GPU 0 dips from 80 % to
40 % while the previous snapshot is network-degraded. -/
theorem rca_analyze_events_witness :
    2 ≤ ([⟨[⟨"0", none, none, some 80, false, none⟩], true, false⟩,
      ⟨[⟨"0", none, none, some 40, false, none⟩], false, false⟩] :
        List StatusSnapshot).length ∧
    (RcaEngine.analyze
      [⟨[⟨"0", none, none, some 80, false, none⟩], true, false⟩,
        ⟨[⟨"0", none, none, some 40, false, none⟩], false, false⟩]).Pairwise
      (fun a b => a.gpu_index ≠ b.gpu_index) ∧
    (check_network_cause
        [⟨[⟨"0", none, none, some 80, false, none⟩], true, false⟩,
          ⟨[⟨"0", none, none, some 40, false, none⟩], false, false⟩] = true ↔
      ∃ s ∈ ([⟨[⟨"0", none, none, some 80, false, none⟩], true, false⟩,
          ⟨[⟨"0", none, none, some 40, false, none⟩], false, false⟩] :
            List StatusSnapshot).drop
          (([⟨[⟨"0", none, none, some 80, false, none⟩], true, false⟩,
            ⟨[⟨"0", none, none, some 40, false, none⟩], false, false⟩] :
              List StatusSnapshot).length - 3),
        s.network_degraded = true) :=
  ⟨by decide,
   (rca_analyze_events
     [⟨[⟨"0", none, none, some 80, false, none⟩], true, false⟩,
       ⟨[⟨"0", none, none, some 40, false, none⟩], false, false⟩]
     (by decide)).1,
   (rca_analyze_events
     [⟨[⟨"0", none, none, some 80, false, none⟩], true, false⟩,
       ⟨[⟨"0", none, none, some 40, false, none⟩], false, false⟩]
     (by decide)).2.2.2⟩

/-- C8: a source-counter rollback (current total below the recorded
previous total) contributes a delta of 0 — the registry counter is left
unchanged, never decreased — and over any sequence of ticks the registry
counters of both the GPU ECC path and the network path are monotone
non-decreasing. -/
theorem counter_rollback_spec :
    (∀ (st : DeltaCounterState) (total : ℕ), total < st.prev →
      (ecc_tick st total).registry_total = st.registry_total) ∧
    (∀ (st : DeltaCounterState) (total : ℕ),
      st.registry_total ≤ (ecc_tick st total).registry_total) ∧
    (∀ (st : DeltaCounterState) (current : ℕ), current < st.prev →
      (net_tick st current).registry_total = st.registry_total) ∧
    (∀ (st : DeltaCounterState) (current : ℕ),
      st.registry_total ≤ (net_tick st current).registry_total) ∧
    (∀ (st : DeltaCounterState) (totals : List ℕ),
      st.registry_total ≤ (totals.foldl ecc_tick st).registry_total) ∧
    (∀ (st : DeltaCounterState) (currents : List ℕ),
      st.registry_total ≤ (currents.foldl net_tick st).registry_total) := by
  have hecc : ∀ (st : DeltaCounterState) (total : ℕ),
      st.registry_total ≤ (ecc_tick st total).registry_total := by
    intro st total
    simp only [ecc_tick]
    split <;> omega
  have hnet : ∀ (st : DeltaCounterState) (current : ℕ),
      st.registry_total ≤ (net_tick st current).registry_total := by
    intro st current
    simp only [net_tick]
    omega
  refine ⟨?_, hecc, ?_, hnet, ?_, ?_⟩
  · intro st total h
    simp only [ecc_tick]
    rw [if_neg (not_le.mpr h)]
  · intro st current h
    simp only [net_tick]
    omega
  · intro st totals
    induction totals generalizing st with
    | nil => simp
    | cons t ts ih =>
      exact le_trans (hecc st t) (ih (ecc_tick st t))
  · intro st currents
    induction currents generalizing st with
    | nil => simp
    | cons c cs ih =>
      exact le_trans (hnet st c) (ih (net_tick st c))

/-- C8 (witness): a rollback from 100 to 10 leaves both registry counters
unchanged on that tick. -/
theorem counter_rollback_spec_witness :
    (10 : ℕ) < (⟨100, 4000⟩ : DeltaCounterState).prev ∧
    (ecc_tick ⟨100, 4000⟩ 10).registry_total = 4000 ∧
    (net_tick ⟨100, 4000⟩ 10).registry_total = 4000 :=
  ⟨by decide, counter_rollback_spec.1 ⟨100, 4000⟩ 10 (by decide),
   counter_rollback_spec.2.2.1 ⟨100, 4000⟩ 10 (by decide)⟩

/-- C1 (witness): at IT = {s: 1500 W}, facility = {p: 3000 W} the theorem
applies and PUE = 2 lies in the stated range. -/
theorem calculate_pue_spec_witness :
    0 < (PueCalculator.mk [("s", 1500)] [("p", 3000)]).total_it_power ∧
    0 < (PueCalculator.mk [("s", 1500)] [("p", 3000)]).total_facility_power ∧
    ((PueCalculator.mk [("s", 1500)] [("p", 3000)]).calculate_pue =
        min ((PueCalculator.mk [("s", 1500)] [("p", 3000)]).total_facility_power /
          (PueCalculator.mk [("s", 1500)] [("p", 3000)]).total_it_power) 10 ∧
      0 < (PueCalculator.mk [("s", 1500)] [("p", 3000)]).calculate_pue ∧
      (PueCalculator.mk [("s", 1500)] [("p", 3000)]).calculate_pue ≤ 10 ∧
      (1 ≤ (PueCalculator.mk [("s", 1500)] [("p", 3000)]).calculate_pue ↔
        (PueCalculator.mk [("s", 1500)] [("p", 3000)]).total_it_power ≤
          (PueCalculator.mk [("s", 1500)] [("p", 3000)]).total_facility_power) ∧
      ((PueCalculator.mk [("s", 1500)] [("p", 3000)]).total_facility_power /
          (PueCalculator.mk [("s", 1500)] [("p", 3000)]).total_it_power ≤ 10 →
        (PueCalculator.mk [("s", 1500)] [("p", 3000)]).calculate_pue =
          (PueCalculator.mk [("s", 1500)] [("p", 3000)]).total_facility_power /
            (PueCalculator.mk [("s", 1500)] [("p", 3000)]).total_it_power) ∧
      (10 < (PueCalculator.mk [("s", 1500)] [("p", 3000)]).total_facility_power /
            (PueCalculator.mk [("s", 1500)] [("p", 3000)]).total_it_power →
        (PueCalculator.mk [("s", 1500)] [("p", 3000)]).calculate_pue = 10) ∧
      (∀ c' : PueCalculator, c'.total_it_power ≤ 0 → c'.calculate_pue = 0)) :=
  ⟨by norm_num [PueCalculator.total_it_power],
   by norm_num [PueCalculator.total_facility_power],
   calculate_pue_spec _ (by norm_num [PueCalculator.total_it_power])
     (by norm_num [PueCalculator.total_facility_power])⟩

end ESNODE
